import Mathlib

/-!
Verification development for the astro-snapshot integration
(src/index.ts). The TypeScript source is shallowly embedded: the pure
configuration resolver becomes a Lean function, and the build-done
handler becomes a function producing the list of external calls it
performs (its trace) together with its outcome (normal return or a
thrown error). External collaborators (preview server, Puppeteer,
filesystem, node:path) are modelled by events and by an oracle that
decides which of their calls fail.
-/

namespace AstroSnapshot

/-- Model of JS String.prototype.startsWith, stated on the character list
of the string (a JS string is a sequence of code units; the embedded
strings here are plain ASCII paths, so characters are faithful). -/
def jsStartsWith (s pre : String) : Bool :=
  pre.data.isPrefixOf s.data

/-- Model of JS String.prototype.endsWith, stated on the character list
of the string. -/
def jsEndsWith (s suf : String) : Bool :=
  suf.data.isSuffixOf s.data

/-- Navigation options passed to page.goto. Each field is optional;
an absent field is a key that is not present on the JS object, so an
object spread does not override with it. Source: the gotoOptions shape
used by resolveScreenshotConfig (src/index.ts lines 115-119). -/
structure GotoOptions where
  waitUntil : Option String := none
  timeout : Option Nat := none
  deriving DecidableEq, Repr

/-- Model of the JS object spread for navigation options:
the overlay's keys win over the base's keys, key by key. -/
def mergeGotoOptions (base overlay : GotoOptions) : GotoOptions where
  waitUntil := overlay.waitUntil <|> base.waitUntil
  timeout := overlay.timeout <|> base.timeout

/-- Modelled from the spec: the user-facing screenshotOptions type
(declared in src/types.ts, which is not among the provided sources) is
the set of encoder options excluding path and type, which are
system-computed. Representative encoder keys are kept. -/
structure UserScreenshotOptions where
  fullPage : Option Bool := none
  quality : Option Nat := none
  omitBackground : Option Bool := none
  deriving DecidableEq, Repr

/-- The full screenshot-options object handed to page.screenshot:
the user-facing keys plus the system-computed path and type
(src/index.ts lines 121-127). -/
structure ScreenshotOptions where
  path : Option String := none
  type : Option String := none
  fullPage : Option Bool := none
  quality : Option Nat := none
  omitBackground : Option Bool := none
  deriving DecidableEq, Repr

/-- Spreading a user screenshot-options object contributes no path and
no type key, because the user-facing type excludes them. -/
def UserScreenshotOptions.toOptions (u : UserScreenshotOptions) : ScreenshotOptions where
  fullPage := u.fullPage
  quality := u.quality
  omitBackground := u.omitBackground

/-- Model of the JS object spread for screenshot options: the overlay's
keys win over the base's keys, key by key. -/
def mergeScreenshotOptions (base overlay : ScreenshotOptions) : ScreenshotOptions where
  path := overlay.path <|> base.path
  type := overlay.type <|> base.type
  fullPage := overlay.fullPage <|> base.fullPage
  quality := overlay.quality <|> base.quality
  omitBackground := overlay.omitBackground <|> base.omitBackground

/-- A per-page capture specification (ScreenshotConfig in src/types.ts,
fields as read off their uses in src/index.ts and the spec): optional
width and height in pixels, optional navigation options, a required
output path, optional user encoder options. An absent gotoOptions or
screenshotOptions spreads as the empty object, which is how it is
modelled here. -/
structure ScreenshotConfig where
  width : Option Nat := none
  height : Option Nat := none
  gotoOptions : GotoOptions := {}
  outputPath : String
  screenshotOptions : UserScreenshotOptions := {}
  deriving DecidableEq, Repr

/-- The integration-wide defaults object (config.defaults spread into a
fresh object at src/index.ts lines 89-91); only its width, height,
gotoOptions and screenshotOptions keys are consulted. -/
structure Defaults where
  width : Option Nat := none
  height : Option Nat := none
  gotoOptions : GotoOptions := {}
  screenshotOptions : UserScreenshotOptions := {}
  deriving DecidableEq, Repr

/-- Modelled from the spec: the Format Resolver getFormat lives in
src/utils.ts, which is not among the provided sources. Per the spec it
derives the encoder format purely from the output path's extension
(.png to png, .jpg and .jpeg to jpeg, .webp to webp) and fails fast on
an unrecognized or missing extension; failure is modelled as none. -/
def getFormat (outputPath : String) : Option String :=
  if jsEndsWith outputPath ".png" then some "png"
  else if jsEndsWith outputPath ".jpg" then some "jpeg"
  else if jsEndsWith outputPath ".jpeg" then some "jpeg"
  else if jsEndsWith outputPath ".webp" then some "webp"
  else none

/-- Model of the JS or-operator a || b on an optional number a: a wins
unless it is absent (undefined) or 0, the falsy number. The source
comment at src/index.ts line 112 reads: Or operator is used to ignore 0. -/
def jsOr (a : Option Nat) (b : Nat) : Nat :=
  match a with
  | some n => if n = 0 then b else n
  | none => b

/-- The fully resolved configuration for one capture, the return value
of resolveScreenshotConfig (src/index.ts lines 108-129). -/
structure ResolvedConfig where
  width : Nat
  height : Nat
  goToOptions : GotoOptions
  outputPath : String
  screenshotOptions : ScreenshotOptions
  deriving DecidableEq, Repr

/-- Embedding of resolveScreenshotConfig (src/index.ts lines 108-129).
Width and height use the or-chains pageConfig.width || defaults.width
|| 1200 and pageConfig.height || defaults.height || 630. goToOptions is
the spread of the fallback containing waitUntil networkidle2, then
defaults.gotoOptions, then pageConfig.gotoOptions. screenshotOptions is
the spread of the seed containing path, type from getFormat and
fullPage false, then defaults.screenshotOptions, then
pageConfig.screenshotOptions. A getFormat failure aborts the whole
resolution (in the source getFormat throws inside the object literal),
which is modelled by returning none. -/
def resolveScreenshotConfig (defaults : Defaults) (pageConfig : ScreenshotConfig) :
    Option ResolvedConfig :=
  let outputPath := pageConfig.outputPath
  (getFormat outputPath).map fun fmt =>
    { width := jsOr pageConfig.width (jsOr defaults.width 1200)
      height := jsOr pageConfig.height (jsOr defaults.height 630)
      goToOptions :=
        mergeGotoOptions
          (mergeGotoOptions { waitUntil := some "networkidle2" } defaults.gotoOptions)
          pageConfig.gotoOptions
      outputPath := outputPath
      screenshotOptions :=
        mergeScreenshotOptions
          (mergeScreenshotOptions
            { path := some outputPath, type := some fmt, fullPage := some false }
            defaults.screenshotOptions.toOptions)
          pageConfig.screenshotOptions.toOptions }

/-- Embedding of the port resolution at src/index.ts line 96:
const port = config.port ?? 4322. Nullish coalescing: only an absent
(undefined or null) port falls back, an explicit 0 is kept. -/
def resolvePort (configPort : Option Nat) : Nat :=
  configPort.getD 4322

/-- Embedding of the route normalization at src/index.ts line 171:
pagePath.startsWith slash ? pagePath : slash + pagePath. -/
def normalizePagePath (pagePath : String) : String :=
  if jsStartsWith pagePath "/" then pagePath else "/" ++ pagePath

/-- Embedding of the navigation URL built at src/index.ts line 172. -/
def pageUrlOf (port : Nat) (pagePath : String) : String :=
  "http://localhost:" ++ toString port ++ normalizePagePath pagePath

/-- Model of the node:path collaborator resolve(rootDir, p) as used at
src/index.ts line 179: an absolute path stays as it is, a relative one
is joined to the root directory. -/
def resolvePath (rootDir p : String) : String :=
  if jsStartsWith p "/" then p else rootDir ++ "/" ++ p

/-- Model of the node:path collaborator relative(rootDir, p) as used at
src/index.ts line 193, for the paths this program produces: a path
under the root loses the root segment. -/
def relativePath (rootDir p : String) : String :=
  if jsStartsWith p (rootDir ++ "/") then (p.data.drop (rootDir ++ "/").length).asString
  else p

/-- Modelled from the spec: the value a route maps to in the pages
mapping (declared in src/types.ts, which is not among the provided
sources) is one capture specification or an array of capture
specifications. JS for...of iterates only the array form; a plain
specification object is not iterable. -/
inductive PagesValue where
  | single (c : ScreenshotConfig)
  | many (cs : List ScreenshotConfig)
  deriving DecidableEq, Repr

/-- One external call performed by the build-done handler. goto and
screenshot record the options they were called with; screenshot is the
call that writes the image file at its options' path. ensureDir models
mkdir(dirname(filePath), recursive) for the given file path. logInfo
records the route and relative output path it reports. -/
inductive Event where
  | logDebug (msg : String)
  | logInfo (pagePath outPath : String)
  | startServer (root : String) (port : Nat)
  | launchBrowser
  | ensureDir (filePath : String)
  | newPage
  | setViewport (width height : Nat)
  | goto (url : String) (opts : GotoOptions)
  | screenshot (opts : ScreenshotOptions)
  | closePage
  | closeBrowser
  | stopServer
  deriving DecidableEq, Repr

/-- Failure oracle for the external collaborators: whether the preview
server starts, whether the Puppeteer launch succeeds, and whether the
screenshot call for a given output path succeeds (the representative
in-loop failure; a failing call performs no write and throws). -/
structure Env where
  serverOk : Bool := true
  launchOk : Bool := true
  screenshotOk : String → Bool := fun _ => true

/-- One iteration of the inner capture loop (src/index.ts lines
174-198) for a single capture specification: resolve the config (a
getFormat failure throws before any external call), compute the
absolute output path, ensure its directory, open a page, set the
viewport, navigate, screenshot, close the page and log. A screenshot
failure throws after the navigation, performing no write. -/
def runSpec (defaults : Defaults) (rootDir pageUrl normalizedPagePath : String) (env : Env)
    (screenshotConfig : ScreenshotConfig) : List Event × Except String Unit :=
  match resolveScreenshotConfig defaults screenshotConfig with
  | none => ([], .error "getFormat: unsupported image format")
  | some cfg =>
    let absoluteOutputPath := resolvePath rootDir cfg.outputPath
    let calls : List Event :=
      [.ensureDir absoluteOutputPath, .newPage, .setViewport cfg.width cfg.height,
        .goto pageUrl cfg.goToOptions]
    if env.screenshotOk cfg.outputPath then
      (calls ++
        [.screenshot cfg.screenshotOptions, .closePage,
          .logInfo normalizedPagePath (relativePath rootDir absoluteOutputPath)],
        .ok ())
    else
      (calls, .error "screenshot failed")

/-- Sequential run of the inner loop over the specifications of one
route; the first thrown error aborts the remaining iterations. -/
def runSpecs (defaults : Defaults) (rootDir pageUrl normalizedPagePath : String) (env : Env) :
    List ScreenshotConfig → List Event × Except String Unit
  | [] => ([], .ok ())
  | c :: cs =>
    match runSpec defaults rootDir pageUrl normalizedPagePath env c with
    | (evs, .error e) => (evs, .error e)
    | (evs, .ok _) =>
      let rest := runSpecs defaults rootDir pageUrl normalizedPagePath env cs
      (evs ++ rest.1, rest.2)

/-- One iteration of the outer loop (src/index.ts lines 170-199):
normalize the route, build the URL, then run for...of over the route's
value. for...of over an array iterates it; for...of over a single
specification object throws a TypeError before the first iteration,
because a plain object is not iterable. -/
def runRoute (defaults : Defaults) (rootDir : String) (port : Nat) (env : Env)
    (pagePath : String) (screenshotConfigs : PagesValue) : List Event × Except String Unit :=
  let normalizedPagePath := normalizePagePath pagePath
  let pageUrl := pageUrlOf port pagePath
  match screenshotConfigs with
  | .many cs => runSpecs defaults rootDir pageUrl normalizedPagePath env cs
  | .single _ => ([], .error "TypeError: screenshotConfigs is not iterable")

/-- Sequential run of the outer loop over the route entries, in
insertion order; the first thrown error aborts the remaining routes. -/
def runRoutes (defaults : Defaults) (rootDir : String) (port : Nat) (env : Env) :
    List (String × PagesValue) → List Event × Except String Unit
  | [] => ([], .ok ())
  | (pagePath, cfgs) :: rest =>
    match runRoute defaults rootDir port env pagePath cfgs with
    | (evs, .error e) => (evs, .error e)
    | (evs, .ok _) =>
      let r := runRoutes defaults rootDir port env rest
      (evs ++ r.1, r.2)

/-- Embedding of handleBuildDone (src/index.ts lines 149-204). pages is
the insertion-ordered entry list of the pages mapping. If it is empty,
one debug log and a normal return. Otherwise the preview server is
started, then the browser is launched; a launch failure propagates with
the server left running, because the try block only begins after the
launch. Once the launch succeeded, the capture loop runs inside
try/finally, so the browser is closed and then the server stopped on
every outcome, and the loop's outcome is returned. -/
def handleBuildDone (pages : List (String × PagesValue)) (defaults : Defaults) (port : Nat)
    (rootDir : String) (env : Env) : List Event × Except String Unit :=
  if pages.isEmpty then
    ([.logDebug "No pages configured for screenshot generation. Skipping..."], .ok ())
  else if env.serverOk then
    if env.launchOk then
      let body := runRoutes defaults rootDir port env pages
      ([.startServer rootDir port, .launchBrowser] ++ body.1 ++ [.closeBrowser, .stopServer],
        body.2)
    else
      ([.startServer rootDir port], .error "puppeteer launch failed")
  else
    ([], .error "preview server failed to start")

/-! Helper lemmas shared by the claim theorems. -/

/-- Unfolding lemma for a successful resolution: the resolved record is
exactly the merge the source builds, for the format the resolver found. -/
theorem resolve_eq (d : Defaults) (p : ScreenshotConfig) (r : ResolvedConfig)
    (h : resolveScreenshotConfig d p = some r) :
    ∃ fmt, getFormat p.outputPath = some fmt ∧
      r = { width := jsOr p.width (jsOr d.width 1200)
            height := jsOr p.height (jsOr d.height 630)
            goToOptions :=
              mergeGotoOptions
                (mergeGotoOptions { waitUntil := some "networkidle2" } d.gotoOptions)
                p.gotoOptions
            outputPath := p.outputPath
            screenshotOptions :=
              mergeScreenshotOptions
                (mergeScreenshotOptions
                  { path := some p.outputPath, type := some fmt, fullPage := some false }
                  d.screenshotOptions.toOptions)
                p.screenshotOptions.toOptions } := by
  simp only [resolveScreenshotConfig] at h
  cases hf : getFormat p.outputPath with
  | none => rw [hf] at h; simp at h
  | some fmt =>
    rw [hf] at h
    simp only [Option.map_some'] at h
    exact ⟨fmt, rfl, (Option.some.injEq _ _ ▸ h).symm⟩

/-- The or-chain never returns 0 when its hard fallback is nonzero. -/
theorem jsOr_ne_zero (a : Option Nat) (b : Nat) (hb : b ≠ 0) : jsOr a b ≠ 0 := by
  cases a with
  | none => exact hb
  | some n =>
    by_cases hn : n = 0
    · simp [jsOr, hn]; exact hb
    · simp [jsOr, hn]

/-- Character list of the one-character slash string. -/
theorem slash_data : "/".data = ['/'] := rfl

/-- Prepending a slash yields a string that starts with a slash. -/
theorem jsStartsWith_slash_append (s : String) : jsStartsWith ("/" ++ s) "/" = true := by
  simp [jsStartsWith, String.data_append, slash_data, List.isPrefixOf]

/-- Every normalized route path begins with a slash. -/
theorem normalizePagePath_starts (q : String) :
    jsStartsWith (normalizePagePath q) "/" = true := by
  unfold normalizePagePath
  cases hq : jsStartsWith q "/" with
  | true => simp [hq]
  | false => simp [hq, jsStartsWith_slash_append]

/-- Trace of one successful capture iteration. -/
theorem runSpec_ok (d : Defaults) (root url np : String) (env : Env) (c : ScreenshotConfig)
    (cfg : ResolvedConfig) (hr : resolveScreenshotConfig d c = some cfg)
    (hok : env.screenshotOk c.outputPath = true) :
    runSpec d root url np env c =
      ([.ensureDir (resolvePath root c.outputPath), .newPage,
        .setViewport cfg.width cfg.height, .goto url cfg.goToOptions,
        .screenshot cfg.screenshotOptions, .closePage,
        .logInfo np (relativePath root (resolvePath root c.outputPath))], .ok ()) := by
  have hout : cfg.outputPath = c.outputPath := by
    obtain ⟨fmt, hf, rfl⟩ := resolve_eq d c cfg hr
    rfl
  unfold runSpec
  rw [hr]
  simp [hout, hok]

/-- Trace of one capture iteration whose screenshot call throws: the
calls up to the navigation happen, no write and no log happen. -/
theorem runSpec_fail (d : Defaults) (root url np : String) (env : Env) (c : ScreenshotConfig)
    (cfg : ResolvedConfig) (hr : resolveScreenshotConfig d c = some cfg)
    (hok : env.screenshotOk c.outputPath = false) :
    runSpec d root url np env c =
      ([.ensureDir (resolvePath root c.outputPath), .newPage,
        .setViewport cfg.width cfg.height, .goto url cfg.goToOptions],
        .error "screenshot failed") := by
  have hout : cfg.outputPath = c.outputPath := by
    obtain ⟨fmt, hf, rfl⟩ := resolve_eq d c cfg hr
    rfl
  unfold runSpec
  rw [hr]
  simp [hout, hok]

/-! Claim theorems. -/

/-- Claim C1: for defaults with width 1920 and gotoOptions timeout 5000,
and a specification with height 800 and outputPath out/a.png, the
resolver returns exactly width 1920, height 800, goToOptions waitUntil
networkidle2 with timeout 5000, outputPath out/a.png, and
screenshotOptions with path out/a.png, type png and fullPage false. -/
theorem resolveScreenshotConfig_example :
    resolveScreenshotConfig
        { width := some 1920, gotoOptions := { timeout := some 5000 } }
        { height := some 800, outputPath := "out/a.png" } =
      some
        { width := 1920, height := 800,
          goToOptions := { waitUntil := some "networkidle2", timeout := some 5000 },
          outputPath := "out/a.png",
          screenshotOptions :=
            { path := some "out/a.png", type := some "png", fullPage := some false } } := by
  decide

/-- Claim C2: the resolved width is the specification's width if truthy,
else the defaults' width if truthy, else 1200, and likewise the height
with fallback 630; a width or height of 0 therefore never survives into
the resolved config, which is always nonzero in both dimensions. -/
theorem resolve_width_height_falsy_override (d : Defaults) (p : ScreenshotConfig)
    (r : ResolvedConfig) (h : resolveScreenshotConfig d p = some r) :
    (r.width =
      match p.width with
      | some w =>
        if w = 0 then
          match d.width with
          | some v => if v = 0 then 1200 else v
          | none => 1200
        else w
      | none =>
        match d.width with
        | some v => if v = 0 then 1200 else v
        | none => 1200) ∧
    (r.height =
      match p.height with
      | some w =>
        if w = 0 then
          match d.height with
          | some v => if v = 0 then 630 else v
          | none => 630
        else w
      | none =>
        match d.height with
        | some v => if v = 0 then 630 else v
        | none => 630) ∧
    r.width ≠ 0 ∧ r.height ≠ 0 := by
  obtain ⟨fmt, hf, rfl⟩ := resolve_eq d p r h
  refine ⟨?_, ?_, ?_, ?_⟩
  · cases p.width <;> cases d.width <;> simp [jsOr]
  · cases p.height <;> cases d.height <;> simp [jsOr]
  · exact jsOr_ne_zero _ _ (jsOr_ne_zero _ _ (by decide))
  · exact jsOr_ne_zero _ _ (jsOr_ne_zero _ _ (by decide))

/-- Concrete input for the claim C2 witness. -/
def c2defaults : Defaults := { width := some 1920 }

/-- Concrete specification for the claim C2 witness, with width 0. -/
def c2page : ScreenshotConfig := { width := some 0, outputPath := "a.png" }

/-- Resolved config for the claim C2 witness. -/
def c2resolved : ResolvedConfig :=
  { width := 1920, height := 630,
    goToOptions := { waitUntil := some "networkidle2" },
    outputPath := "a.png",
    screenshotOptions := { path := some "a.png", type := some "png", fullPage := some false } }

/-- Witness for claim C2: a specification with width 0 resolves to the
defaults' 1920, not 0, and the missing height falls back to 630. -/
theorem resolve_width_height_falsy_override_witness :
    resolveScreenshotConfig c2defaults c2page = some c2resolved ∧
    c2resolved.width = 1920 ∧ c2resolved.height = 630 ∧ c2resolved.width ≠ 0 := by
  have h := resolve_width_height_falsy_override c2defaults c2page c2resolved (by decide)
  exact ⟨by decide, h.1, h.2.1, h.2.2.1⟩

/-- Claim C3: in every resolved config, screenshotOptions' path is the
specification's outputPath and its type is the format derived from that
outputPath; since the user-facing screenshotOptions type carries no
path or type key (they are system-computed), no defaults or per-page
encoder options can override them. -/
theorem resolve_screenshotOptions_system_computed (d : Defaults) (p : ScreenshotConfig)
    (r : ResolvedConfig) (h : resolveScreenshotConfig d p = some r) :
    r.screenshotOptions.path = some p.outputPath ∧
    r.screenshotOptions.type = getFormat p.outputPath := by
  obtain ⟨fmt, hf, rfl⟩ := resolve_eq d p r h
  refine ⟨rfl, ?_⟩
  rw [hf]
  rfl

/-- Concrete defaults for the claim C3 witness, with encoder options. -/
def c3defaults : Defaults := { screenshotOptions := { fullPage := some true } }

/-- Concrete specification for the claim C3 witness. -/
def c3page : ScreenshotConfig :=
  { outputPath := "shot.webp", screenshotOptions := { quality := some 80 } }

/-- Resolved config for the claim C3 witness. -/
def c3resolved : ResolvedConfig :=
  { width := 1200, height := 630,
    goToOptions := { waitUntil := some "networkidle2" },
    outputPath := "shot.webp",
    screenshotOptions :=
      { path := some "shot.webp", type := some "webp", fullPage := some true,
        quality := some 80 } }

/-- Witness for claim C3 at a webp output path with user encoder
options on both tiers. -/
theorem resolve_screenshotOptions_system_computed_witness :
    resolveScreenshotConfig c3defaults c3page = some c3resolved ∧
    c3resolved.screenshotOptions.path = some "shot.webp" ∧
    c3resolved.screenshotOptions.type = getFormat "shot.webp" := by
  have h := resolve_screenshotOptions_system_computed c3defaults c3page c3resolved (by decide)
  exact ⟨by decide, h.1, h.2⟩

/-- Claim C4 counterexample: the claim says the preview server is
stopped in all cases, even when the browser launch itself fails; but on
the run where the launch fails, the trace holds only the server start,
no stopServer and no closeBrowser, because the try block of the
guaranteed-cleanup scope only begins after the launch. -/
theorem handleBuildDone_launch_failure_skips_teardown :
    handleBuildDone [("/", .many [{ outputPath := "a.png" }])] {} 4322 "/root"
        { launchOk := false } =
      ([Event.startServer "/root" 4322], Except.error "puppeteer launch failed") ∧
    Event.stopServer ∉
      (handleBuildDone [("/", .many [{ outputPath := "a.png" }])] {} 4322 "/root"
        { launchOk := false }).1 := by
  exact ⟨rfl, by decide⟩

/-- Claim C4 (amended): once at least one route is configured and both
the preview server start and the browser launch succeed, then on every
outcome of the capture loop the trace ends by closing the browser and
then stopping the server; when the launch itself fails, the server is
not stopped (see the counterexample). -/
theorem handleBuildDone_teardown_after_launch (pages : List (String × PagesValue))
    (d : Defaults) (port : Nat) (root : String) (env : Env) (hne : pages ≠ [])
    (hs : env.serverOk = true) (hl : env.launchOk = true) :
    ∃ evs, (handleBuildDone pages d port root env).1 =
      Event.startServer root port :: Event.launchBrowser ::
        (evs ++ [Event.closeBrowser, Event.stopServer]) := by
  have hne' : pages.isEmpty = false := by
    cases pages with
    | nil => exact absurd rfl hne
    | cons a l => rfl
  unfold handleBuildDone
  rw [hne', hs, hl]
  exact ⟨(runRoutes d root port env pages).1, by simp⟩

/-- Witness for the amended claim C4 on a one-route configuration whose
capture fails: the teardown pair still closes the trace. -/
theorem handleBuildDone_teardown_after_launch_witness :
    ∃ evs, (handleBuildDone [("/", .many [{ outputPath := "a.png" }])] {} 4322 "/root"
        { screenshotOk := fun _ => false }).1 =
      Event.startServer "/root" 4322 :: Event.launchBrowser ::
        (evs ++ [Event.closeBrowser, Event.stopServer]) :=
  handleBuildDone_teardown_after_launch [("/", .many [{ outputPath := "a.png" }])] {} 4322
    "/root" { screenshotOk := fun _ => false } (by decide) (by rfl) (by rfl)

/-- Claim C5: at the failing input taken from the module's own usage
example (a route mapped to a single capture specification, not wrapped
in an array), the handler does not process the specification: the
for...of statement throws a TypeError because a plain object is not
iterable, so after server start and browser launch the run aborts with
no capture performed, and only the teardown pair follows. -/
theorem handleBuildDone_single_spec_type_error :
    handleBuildDone
        [("/about",
          .single { width := some 1920, height := some 1080,
                    outputPath := "public/images/about-preview.png" })] {} 4322 "/root" {} =
      ([Event.startServer "/root" 4322, Event.launchBrowser, Event.closeBrowser,
          Event.stopServer],
        Except.error "TypeError: screenshotConfigs is not iterable") := rfl

/-- Claim C6: with two routes of one capture specification each, when
the second specification's screenshot call throws, the first capture's
write is in the trace (and nothing removes it), no write for the second
specification ever happens, the trace still ends by closing the browser
and stopping the server, and the error propagates as the outcome. -/
theorem handleBuildDone_second_capture_failure (route1 route2 : String)
    (c1 c2 : ScreenshotConfig) (d : Defaults) (port : Nat) (root : String) (env : Env)
    (cfg1 cfg2 : ResolvedConfig)
    (hr1 : resolveScreenshotConfig d c1 = some cfg1)
    (hr2 : resolveScreenshotConfig d c2 = some cfg2)
    (hs : env.serverOk = true) (hl : env.launchOk = true)
    (h1 : env.screenshotOk c1.outputPath = true)
    (h2 : env.screenshotOk c2.outputPath = false) :
    Event.screenshot cfg1.screenshotOptions ∈
        (handleBuildDone [(route1, .many [c1]), (route2, .many [c2])] d port root env).1 ∧
    Event.screenshot cfg2.screenshotOptions ∉
        (handleBuildDone [(route1, .many [c1]), (route2, .many [c2])] d port root env).1 ∧
    (∃ evs, (handleBuildDone [(route1, .many [c1]), (route2, .many [c2])] d port root env).1 =
      evs ++ [Event.closeBrowser, Event.stopServer]) ∧
    (handleBuildDone [(route1, .many [c1]), (route2, .many [c2])] d port root env).2 =
      Except.error "screenshot failed" := by
  have hspec1 :=
    runSpec_ok d root (pageUrlOf port route1) (normalizePagePath route1) env c1 cfg1 hr1 h1
  have hspec2 :=
    runSpec_fail d root (pageUrlOf port route2) (normalizePagePath route2) env c2 cfg2 hr2 h2
  have hpq : c1.outputPath ≠ c2.outputPath := by
    intro he
    rw [he] at h1
    rw [h1] at h2
    exact Bool.noConfusion h2
  have hso : cfg1.screenshotOptions ≠ cfg2.screenshotOptions := by
    have p1 : cfg1.screenshotOptions.path = some c1.outputPath := by
      obtain ⟨fmt, hf, rfl⟩ := resolve_eq d c1 cfg1 hr1
      rfl
    have p2 : cfg2.screenshotOptions.path = some c2.outputPath := by
      obtain ⟨fmt, hf, rfl⟩ := resolve_eq d c2 cfg2 hr2
      rfl
    intro he
    rw [he, p2] at p1
    injection p1 with hEq
    exact hpq hEq.symm
  refine ⟨?_, ?_, ?_, ?_⟩
  · simp [handleBuildDone, runRoutes, runRoute, runSpecs, hspec1, hspec2, hs, hl]
  · simp [handleBuildDone, runRoutes, runRoute, runSpecs, hspec1, hspec2, hs, hl, hso,
      Ne.symm hso]
  · exact ⟨[Event.startServer root port, Event.launchBrowser] ++
      (runRoutes d root port env [(route1, .many [c1]), (route2, .many [c2])]).1,
      by simp [handleBuildDone, hs, hl]⟩
  · simp [handleBuildDone, runRoutes, runRoute, runSpecs, hspec1, hspec2, hs, hl]

/-- First capture specification for the claim C6 witness. -/
def c6spec1 : ScreenshotConfig := { outputPath := "a.png" }

/-- Second capture specification for the claim C6 witness; its
screenshot call fails under the witness oracle. -/
def c6spec2 : ScreenshotConfig := { outputPath := "b.png" }

/-- Oracle for the claim C6 witness: only the first output path's
screenshot call succeeds. -/
def c6env : Env := { screenshotOk := fun p => p == "a.png" }

/-- Resolved config of the first specification for the claim C6 witness. -/
def c6cfg1 : ResolvedConfig :=
  { width := 1200, height := 630,
    goToOptions := { waitUntil := some "networkidle2" },
    outputPath := "a.png",
    screenshotOptions := { path := some "a.png", type := some "png", fullPage := some false } }

/-- Resolved config of the second specification for the claim C6 witness. -/
def c6cfg2 : ResolvedConfig :=
  { width := 1200, height := 630,
    goToOptions := { waitUntil := some "networkidle2" },
    outputPath := "b.png",
    screenshotOptions := { path := some "b.png", type := some "png", fullPage := some false } }

/-- Witness for claim C6 on two concrete routes where only the second
screenshot call fails. -/
theorem handleBuildDone_second_capture_failure_witness :
    resolveScreenshotConfig {} c6spec1 = some c6cfg1 ∧
    resolveScreenshotConfig {} c6spec2 = some c6cfg2 ∧
    c6env.screenshotOk c6spec1.outputPath = true ∧
    c6env.screenshotOk c6spec2.outputPath = false ∧
    (Event.screenshot c6cfg1.screenshotOptions ∈
        (handleBuildDone [("/", .many [c6spec1]), ("about", .many [c6spec2])] {} 4322 "/root"
          c6env).1 ∧
      Event.screenshot c6cfg2.screenshotOptions ∉
        (handleBuildDone [("/", .many [c6spec1]), ("about", .many [c6spec2])] {} 4322 "/root"
          c6env).1 ∧
      (∃ evs,
        (handleBuildDone [("/", .many [c6spec1]), ("about", .many [c6spec2])] {} 4322 "/root"
          c6env).1 = evs ++ [Event.closeBrowser, Event.stopServer]) ∧
      (handleBuildDone [("/", .many [c6spec1]), ("about", .many [c6spec2])] {} 4322 "/root"
          c6env).2 = Except.error "screenshot failed") :=
  ⟨by decide, by decide, by decide, by decide,
    handleBuildDone_second_capture_failure "/" "about" c6spec1 c6spec2 {} 4322 "/root" c6env
      c6cfg1 c6cfg2 (by decide) (by decide) rfl rfl (by decide) (by decide)⟩

/-- Claim C7: the resolved goToOptions are the shallow merge of the
fallback waitUntil networkidle2, under the defaults' gotoOptions, under
the specification's gotoOptions; key by key the specification's value
wins over the defaults' value, which wins over the fallback. -/
theorem resolve_goToOptions_three_way_merge (d : Defaults) (p : ScreenshotConfig)
    (r : ResolvedConfig) (h : resolveScreenshotConfig d p = some r) :
    r.goToOptions =
      mergeGotoOptions
        (mergeGotoOptions { waitUntil := some "networkidle2", timeout := none } d.gotoOptions)
        p.gotoOptions ∧
    r.goToOptions.waitUntil =
      (p.gotoOptions.waitUntil <|> d.gotoOptions.waitUntil <|> some "networkidle2") ∧
    r.goToOptions.timeout = (p.gotoOptions.timeout <|> d.gotoOptions.timeout) := by
  obtain ⟨fmt, hf, rfl⟩ := resolve_eq d p r h
  refine ⟨rfl, ?_, ?_⟩
  · cases hw : p.gotoOptions.waitUntil <;>
      cases hd : d.gotoOptions.waitUntil <;>
        simp [mergeGotoOptions, hw, hd]
  · cases hw : p.gotoOptions.timeout <;>
      cases hd : d.gotoOptions.timeout <;>
        simp [mergeGotoOptions, hw, hd]

/-- Concrete defaults for the claim C7 witness. -/
def c7defaults : Defaults :=
  { gotoOptions := { waitUntil := some "load", timeout := some 9000 } }

/-- Concrete specification for the claim C7 witness. -/
def c7page : ScreenshotConfig :=
  { outputPath := "a.jpg", gotoOptions := { timeout := some 3000 } }

/-- Resolved config for the claim C7 witness: the page's timeout wins
over the defaults' timeout, the defaults' waitUntil wins over the
fallback. -/
def c7resolved : ResolvedConfig :=
  { width := 1200, height := 630,
    goToOptions := { waitUntil := some "load", timeout := some 3000 },
    outputPath := "a.jpg",
    screenshotOptions := { path := some "a.jpg", type := some "jpeg", fullPage := some false } }

/-- Witness for claim C7 with all three tiers populated. -/
theorem resolve_goToOptions_three_way_merge_witness :
    resolveScreenshotConfig c7defaults c7page = some c7resolved ∧
    c7resolved.goToOptions.waitUntil = some "load" ∧
    c7resolved.goToOptions.timeout = some 3000 := by
  have h := resolve_goToOptions_three_way_merge c7defaults c7page c7resolved (by decide)
  exact ⟨by decide, h.2.1, h.2.2⟩

/-- Claim C8: with an empty pages mapping the build-done handler emits
exactly one debug-level log entry and performs no other external call:
no server start, no browser launch, no capture, and it returns
normally. -/
theorem handleBuildDone_empty_pages (d : Defaults) (port : Nat) (root : String) (env : Env) :
    handleBuildDone [] d port root env =
      ([Event.logDebug "No pages configured for screenshot generation. Skipping..."],
        Except.ok ()) := rfl

/-- Claim C9: a route key without a leading slash yields the same
navigation URL as the same key with a leading slash, and every
normalized route path begins with a slash. -/
theorem pageUrl_normalization (port : Nat) (pagePath : String)
    (h : jsStartsWith pagePath "/" = false) :
    pageUrlOf port pagePath = pageUrlOf port ("/" ++ pagePath) ∧
    ∀ q : String, jsStartsWith (normalizePagePath q) "/" = true := by
  constructor
  · unfold pageUrlOf normalizePagePath
    rw [h, jsStartsWith_slash_append]
    simp
  · exact normalizePagePath_starts

/-- Witness for claim C9: the key about navigates like the key
slash-about, and its normalization begins with a slash. -/
theorem pageUrl_normalization_witness :
    jsStartsWith "about" "/" = false ∧
    pageUrlOf 4322 "about" = pageUrlOf 4322 ("/" ++ "about") ∧
    jsStartsWith (normalizePagePath "about") "/" = true :=
  ⟨by decide, (pageUrl_normalization 4322 "about" (by decide)).1,
    (pageUrl_normalization 4322 "about" (by decide)).2 "about"⟩

/-- Claim C10: the preview-server port uses nullish coalescing, not
truthiness: every explicitly configured port, including 0, is used
as-is, and only an absent port falls back to 4322; unlike width and
height, where a 0 in the specification is treated as unset and resolves
to the 1200 by 630 fallback. -/
theorem resolvePort_nullish_coalescing :
    (∀ n : Nat, resolvePort (some n) = n) ∧
    resolvePort none = 4322 ∧
    resolvePort (some 0) = 0 ∧
    (resolveScreenshotConfig {}
        { width := some 0, height := some 0, outputPath := "w.png" }).map
      (fun r => (r.width, r.height)) = some (1200, 630) := by
  exact ⟨fun n => rfl, rfl, rfl, by decide⟩

end AstroSnapshot
